import Mathlib

/-!
Shallow embedding of `wsj_value_fetcher.py` (wsj-scraper repository).

The embedding models:
  * `_parse_number`   — strip, remove every char outside `[0-9.-]`, Python `float()`;
  * `_parse_wsj_date` — strip, match regex `(\d{1,2})/(\d{1,2})/(\d{2,4})$`,
    two-digit-year window, `datetime(year, m, d)` validity, `strftime("%Y-%m-%d")`;
  * `ensure_header`   — gspread header enforcement (clear + rewrite on mismatch);
  * `append_if_new`   — duplicate scan on column 1 and conditional append;
  * the `main` pipeline from the successful fetch onwards, with an explicit
    fault point for the spreadsheet API calls.

Modelling conventions: machine floats are modelled as exact rationals (every
scraped numeric string in scope is a finite decimal); the spreadsheet is a
`List (List String)` as returned by `gspread.get_all_values()`, which yields a
rectangular matrix of strings; wall-clock values (`datetime.now`) enter as
explicit parameters.
-/

/-- Python `str.isspace` characters relevant to `str.strip()`: space, tab,
newline, carriage return, vertical tab, form feed.  (Python strips all Unicode
whitespace; the inputs in scope are ASCII scrapes, so the ASCII set is the
faithful restriction.) -/
def isPySpace (c : Char) : Bool :=
  c = ' ' || c = '\t' || c = '\n' || c = '\x0d' || c = '\x0b' || c = '\x0c'

/-- Python `txt.strip()` on the character list: drop whitespace from both ends. -/
def stripList (l : List Char) : List Char :=
  ((l.dropWhile isPySpace).reverse.dropWhile isPySpace).reverse

/-- Maximal leading run of decimal digits (regex `\d*` greedy step):
returns the run and the remainder. -/
def takeDigits : List Char → List Char × List Char
  | [] => ([], [])
  | c :: t =>
    if c.isDigit then
      let p := takeDigits t
      (c :: p.1, p.2)
    else ([], c :: t)

/-- Numeric value of a digit string, as Python `int()` computes it
(most significant digit first; leading zeros allowed). -/
def natOfDigits (l : List Char) : Nat :=
  l.foldl (fun acc c => 10 * acc + (c.toNat - '0'.toNat)) 0

/-- Match of `re.match(r"(\d{1,2})/(\d{1,2})/(\d{2,4})$", txt)` over a stripped
character list, returning the three captured groups.  Because each digit group
is followed by `/` or by the end anchor — neither of which a digit can match —
regex backtracking can never succeed where the maximal digit run fails, so the
greedy maximal-run reading below is exact.  `$` is the end of the string: the
input has been stripped, hence carries no trailing newline. -/
def wsjRegexMatch (l : List Char) : Option (List Char × List Char × List Char) :=
  match takeDigits l with
  | (g1, '/' :: r1) =>
    match takeDigits r1 with
    | (g2, '/' :: r2) =>
      match takeDigits r2 with
      | (g3, []) =>
        if (1 ≤ g1.length ∧ g1.length ≤ 2) ∧ (1 ≤ g2.length ∧ g2.length ≤ 2)
            ∧ (2 ≤ g3.length ∧ g3.length ≤ 4) then
          some (g1, g2, g3)
        else none
      | _ => none
    | _ => none
  | _ => none

/-- Gregorian leap-year rule used by Python `datetime`. -/
def isLeapYear (y : Nat) : Bool :=
  y % 4 = 0 && (y % 100 ≠ 0 || y % 400 = 0)

/-- Days in a month, as `datetime` validates them. -/
def daysInMonth (y m : Nat) : Nat :=
  if m = 2 then (if isLeapYear y then 29 else 28)
  else if m = 4 ∨ m = 6 ∨ m = 9 ∨ m = 11 then 30
  else 31

/-- Python `datetime(year, month, day)` constructor validity:
`MINYEAR = 1 ≤ year ≤ MAXYEAR = 9999`, `1 ≤ month ≤ 12`,
`1 ≤ day ≤ daysInMonth`.  Outside this range the constructor raises, which
`_parse_wsj_date` catches and turns into `None`. -/
def isValidDatetime (y m d : Nat) : Bool :=
  1 ≤ y && y ≤ 9999 && 1 ≤ m && m ≤ 12 && 1 ≤ d && d ≤ daysInMonth y m

/-- Decimal numeral of `n` zero-padded on the left to `w` digits. -/
def padNum (w n : Nat) : String :=
  let s := toString n
  ⟨List.replicate (w - s.length) '0' ++ s.toList⟩

/-- Result of `d.strftime("%Y-%m-%d")`: year, month and day as zero-padded
decimal fields.  (`%m`/`%d` are zero-padded to 2 by C `strftime`; `%Y` prints
the year — padding of years below 1000 is platform-dependent in CPython, and
every claim in scope concerns years ≥ 1970, where all platforms agree on the
plain 4-digit numeral modelled here.) -/
def strftimeYmd (y m d : Nat) : String :=
  padNum 4 y ++ "-" ++ padNum 2 m ++ "-" ++ padNum 2 d

/-- Embedding of `_parse_wsj_date` (wsj_value_fetcher.py lines 28–43):
strip, regex match, two-digit-year window (`≤ 69 → 2000+`, `> 69 → 1900+`),
`datetime` construction guarded by `try/except`, ISO formatting. -/
def _parse_wsj_date (txt : String) : Option String :=
  let l := stripList txt.toList
  match wsjRegexMatch l with
  | none => none
  | some (mm, dd, yy) =>
    let year :=
      if yy.length = 2 then
        let y := natOfDigits yy
        if y ≤ 69 then 2000 + y else 1900 + y
      else natOfDigits yy
    let m := natOfDigits mm
    let d := natOfDigits dd
    if isValidDatetime year m d then some (strftimeYmd year m d) else none

/-- Characters kept by `re.sub(r"[^\d\.\-]", "", ·)`: digits, dot, minus. -/
def keepNumChar (c : Char) : Bool :=
  c.isDigit || c = '.' || c = '-'

/-- Python `float()` applied to a sign-free body drawn from `[0-9.-]`:
accepts `d+`, `d+.d*` and `.d+`, rejecting everything else (a stray `-` or a
second `.` in the body makes `float` raise).  The value is the exact decimal
`sign * (intpart.fracpart)`, floats being modelled as rationals. -/
def pyFloatBody (sign : Int) (l : List Char) : Option ℚ :=
  let p := takeDigits l
  match p.2 with
  | [] => if p.1 = [] then none else some (mkRat (sign * natOfDigits p.1) 1)
  | '.' :: frac =>
    if frac.all Char.isDigit ∧ (p.1 ≠ [] ∨ frac ≠ []) then
      some (mkRat (sign * (natOfDigits p.1 * 10 ^ frac.length + natOfDigits frac))
        (10 ^ frac.length))
    else none
  | _ => none

/-- Python `float()` on a string drawn from `[0-9.-]` (the only strings the
code ever passes to it): optional leading minus sign, then a numeric body.
`inf`/`nan`/exponent forms cannot occur — their letters were stripped. -/
def pyFloatOfChars (l : List Char) : Option ℚ :=
  match l with
  | '-' :: rest => pyFloatBody (-1) rest
  | _ => pyFloatBody 1 l

/-- Embedding of `_parse_number` (wsj_value_fetcher.py lines 19–26): `None`
guard, strip, delete every character outside `[0-9.-]`, emptiness check,
`float()` under `try/except`.  The argument is an `Option String` because the
Python parameter may be `None`. -/
def _parse_number (txt : Option String) : Option ℚ :=
  match txt with
  | none => none
  | some t =>
    let cleaned := (stripList t.toList).filter keepNumChar
    if cleaned = [] then none else pyFloatOfChars cleaned

/-- The canonical header row written by `ensure_header`
(wsj_value_fetcher.py line 130). -/
def canonicalHeader : List String := ["date", "close", "source", "retrieved_at_utc"]

/-- ASCII branch of Python `str.lower` on one character. -/
def pyLowerChar (c : Char) : Char :=
  if 'A' ≤ c ∧ c ≤ 'Z' then Char.ofNat (c.toNat + 32) else c

/-- Python `str.lower`.  (Unicode-aware in Python; it agrees with the ASCII
map on every string compared against the all-ASCII canonical header.) -/
def pyLower (s : String) : String := ⟨s.toList.map pyLowerChar⟩

/-- Embedding of `ensure_header` (lines 129–137) as a transformation of the
sheet state.  `ws.row_values(1)` is the first row of the value matrix (empty
for an empty sheet); on a case-insensitive mismatch the code runs `ws.clear()`
then appends the canonical header, leaving exactly one row; otherwise it
writes nothing. -/
def ensure_header (ws : List (List String)) : List (List String) :=
  let current := ws.headD []
  if current.map pyLower ≠ canonicalHeader then [canonicalHeader]
  else ws

/-- The `existing` list of `append_if_new` (line 141):
`[r[0] for r in rows[1:]] if len(rows) > 1 else []`.  `get_all_values`
returns a rectangular matrix, so each row is nonempty and `r[0]` is its head. -/
def existingDates (rows : List (List String)) : List String :=
  if 1 < rows.length then (rows.drop 1).map (fun r => r.headD "") else []

/-- Embedding of `append_if_new` (lines 139–148), returning the Python result
together with the updated sheet.  `close_val` enters already rendered as the
cell string (the float-to-cell conversion is the spreadsheet API's) and
`retrieved` is the `datetime.now(timezone.utc)` timestamp, passed explicitly. -/
def append_if_new (ws : List (List String)) (date_iso close_val source retrieved : String) :
    Bool × List (List String) :=
  if date_iso ∈ existingDates ws then (false, ws)
  else (true, ws ++ [[date_iso, close_val, source, retrieved]])

/-- Python `str(None)` — the text an f-string interpolates for `None`. -/
def pyNoneRepr : String := "None"

/-- Text an f-string interpolates for the value `close_val` of
`_parse_number`: `"None"` when parsing failed, otherwise the float's decimal
repr.  (CPython renders a float by its shortest round-trip decimal; that
formatting is floating-point-specific and no claim in scope inspects it, so
the successful branch renders the exact rational num/den.) -/
def closeValDisplay : Option ℚ → String
  | none => pyNoneRepr
  | some q => toString q.num ++ "/" ++ toString q.den

/-- The `RuntimeError` message of wsj_value_fetcher.py line 112:
`f"Could not parse Date='{date_txt}' or Close='{close_val}' from WSJ."`.
Note the second interpolation is the parsed value `close_val`, not the raw
scrape `close_txt`. -/
def wsjParseErrorMsg (date_txt close_repr : String) : String :=
  "Could not parse Date=\x27" ++ date_txt ++ "\x27 or Close=\x27" ++ close_repr
    ++ "\x27 from WSJ."

/-- Parse-and-validate step of `fetch_latest_from_wsj` (lines 108–115): parse
both scraped texts; raise the `RuntimeError` when `not date_iso or close_val
is None` (the date parser never yields the empty string, so `not date_iso`
is exactly `date_iso is None`); otherwise return the pair. -/
def fetchParseStep (date_txt close_txt : String) : Except String (String × ℚ) :=
  let date_iso := _parse_wsj_date date_txt
  let close_val := _parse_number (some close_txt)
  match date_iso, close_val with
  | some d, some v => Except.ok (d, v)
  | _, _ => Except.error (wsjParseErrorMsg date_txt (closeValDisplay close_val))

/-- Python substring test `needle in hay` on character lists. -/
def charsContain (hay needle : List Char) : Bool :=
  match hay with
  | [] => needle.isEmpty
  | c :: t => needle.isPrefixOf (c :: t) || charsContain t needle

/-- Outcome of one `main` run: normal termination (with the `append_if_new`
result) or an uncaught exception. -/
inductive RunOutcome where
  | ok (inserted : Bool)
  | error
deriving DecidableEq, Repr

/-- The `append_if_new` phase of `main`, with its two spreadsheet API calls
(`get_all_values`, then possibly `append_row`) at fault indices `i` and
`i + 1`.  `failAt = some j` makes the `j`-th API call of the run raise with
no effect on the sheet; earlier calls succeed. -/
def mainAppendPhase (s : List (List String)) (d c source retrieved : String)
    (failAt : Option Nat) (i : Nat) : RunOutcome × List (List String) :=
  if failAt = some i then (RunOutcome.error, s)
  else if d ∈ existingDates s then (RunOutcome.ok false, s)
  else if failAt = some (i + 1) then (RunOutcome.error, s)
  else (RunOutcome.ok true, s ++ [[d, c, source, retrieved]])

/-- The sheet-mutating tail of `main` (lines 157–176): after the fetch,
`ensure_header` runs (API calls: `row_values(1)`; on mismatch `clear` then
`append_row(header)`), then `append_if_new`.  `fetch = none` models any
failure up to and including the fetch/parse stage — `main` aborts before any
spreadsheet call.  `failAt` injects one failing spreadsheet API call (an API
error raises in Python and aborts the run; a failed call writes nothing). -/
def mainRun (s : List (List String)) (fetch : Option (String × String))
    (source retrieved : String) (failAt : Option Nat) :
    RunOutcome × List (List String) :=
  match fetch with
  | none => (RunOutcome.error, s)
  | some (d, c) =>
    if failAt = some 0 then (RunOutcome.error, s)
    else if (s.headD []).map pyLower ≠ canonicalHeader then
      if failAt = some 1 then (RunOutcome.error, s)
      else if failAt = some 2 then (RunOutcome.error, ([] : List (List String)))
      else mainAppendPhase [canonicalHeader] d c source retrieved failAt 3
    else mainAppendPhase s d c source retrieved failAt 1

/-- State-passing rendering of one invocation of `_parse_number`: the function
body touches no global state and performs no I/O (string scan plus `float`),
so its effect on any ambient world `w` is the identity. -/
def parseNumberInvoke (w : Nat) (txt : Option String) : Option ℚ × Nat :=
  (_parse_number txt, w)

/-- State-passing rendering of one invocation of `_parse_wsj_date`: regex
match, pure arithmetic, `datetime` construction and formatting — no global
state, no I/O. -/
def parseWsjDateInvoke (w : Nat) (txt : String) : Option String × Nat :=
  (_parse_wsj_date txt, w)

lemma dropWhile_all_false (p : Char → Bool) :
    ∀ l : List Char, (∀ c ∈ l, p c = false) → l.dropWhile p = l
  | [], _ => rfl
  | c :: t, h => by simp [List.dropWhile_cons, h c (by simp)]

lemma stripList_id (l : List Char) (h : ∀ c ∈ l, isPySpace c = false) :
    stripList l = l := by
  unfold stripList
  rw [dropWhile_all_false _ l h]
  rw [dropWhile_all_false _ l.reverse (fun c hc => h c (List.mem_reverse.mp hc))]
  exact List.reverse_reverse l

lemma digit_not_space (c : Char) (h : c.isDigit = true) : isPySpace c = false := by
  cases hsp : isPySpace c
  · rfl
  · exfalso
    unfold isPySpace at hsp
    simp only [Bool.or_eq_true, decide_eq_true_eq] at hsp
    rcases hsp with ((((h1 | h1) | h1) | h1) | h1) | h1 <;> subst h1 <;>
      exact absurd h (by decide)

lemma takeDigits_all (l : List Char) (h : ∀ c ∈ l, c.isDigit = true) :
    takeDigits l = (l, []) := by
  induction l with
  | nil => rfl
  | cons c t ih => simp [takeDigits, h c (by simp), ih (fun x hx => h x (by simp [hx]))]

lemma takeDigits_run (ds t : List Char) (c : Char)
    (hds : ∀ x ∈ ds, x.isDigit = true) (hc : c.isDigit = false) :
    takeDigits (ds ++ c :: t) = (ds, c :: t) := by
  induction ds with
  | nil => simp [takeDigits, hc]
  | cons d rest ih =>
    simp [takeDigits, hds d (by simp), ih (fun x hx => hds x (by simp [hx]))]

lemma wsjRegexMatch_groups (ms ds ys : List Char)
    (hms : ∀ c ∈ ms, c.isDigit = true) (hds : ∀ c ∈ ds, c.isDigit = true)
    (hys : ∀ c ∈ ys, c.isDigit = true)
    (hm1 : 1 ≤ ms.length) (hm2 : ms.length ≤ 2)
    (hd1 : 1 ≤ ds.length) (hd2 : ds.length ≤ 2)
    (hy1 : 2 ≤ ys.length) (hy2 : ys.length ≤ 4) :
    wsjRegexMatch (ms ++ '/' :: (ds ++ '/' :: ys)) = some (ms, ds, ys) := by
  have h1 : takeDigits (ms ++ '/' :: (ds ++ '/' :: ys)) = (ms, '/' :: (ds ++ '/' :: ys)) :=
    takeDigits_run _ _ _ hms (by decide)
  have h2 : takeDigits (ds ++ '/' :: ys) = (ds, '/' :: ys) :=
    takeDigits_run _ _ _ hds (by decide)
  have h3 : takeDigits ys = (ys, []) := takeDigits_all ys hys
  simp only [wsjRegexMatch, h1, h2, h3]
  simp [hm1, hm2, hd1, hd2, hy1, hy2]

lemma parse_wsj_date_shape (ms ds ys : List Char)
    (hms : ∀ c ∈ ms, c.isDigit = true) (hds : ∀ c ∈ ds, c.isDigit = true)
    (hys : ∀ c ∈ ys, c.isDigit = true)
    (hm1 : 1 ≤ ms.length) (hm2 : ms.length ≤ 2)
    (hd1 : 1 ≤ ds.length) (hd2 : ds.length ≤ 2)
    (hy1 : 2 ≤ ys.length) (hy2 : ys.length ≤ 4) :
    _parse_wsj_date ⟨ms ++ '/' :: (ds ++ '/' :: ys)⟩ =
      (let year := if ys.length = 2 then
          (if natOfDigits ys ≤ 69 then 2000 + natOfDigits ys else 1900 + natOfDigits ys)
        else natOfDigits ys
      if isValidDatetime year (natOfDigits ms) (natOfDigits ds) then
        some (strftimeYmd year (natOfDigits ms) (natOfDigits ds))
      else none) := by
  have hchars : ∀ c ∈ ms ++ '/' :: (ds ++ '/' :: ys), isPySpace c = false := by
    intro c hc
    simp only [List.mem_append, List.mem_cons] at hc
    rcases hc with h | h | h | h | h
    · exact digit_not_space c (hms c h)
    · subst h; decide
    · exact digit_not_space c (hds c h)
    · subst h; decide
    · exact digit_not_space c (hys c h)
  have hmatch := wsjRegexMatch_groups ms ds ys hms hds hys hm1 hm2 hd1 hd2 hy1 hy2
  have hdata : (⟨ms ++ '/' :: (ds ++ '/' :: ys)⟩ : String).toList
      = ms ++ '/' :: (ds ++ '/' :: ys) := rfl
  unfold _parse_wsj_date
  rw [hdata, stripList_id _ hchars]
  simp only [hmatch]

/-- C1: for every valid `M/D/YY` or `M/D/YYYY` date string, `_parse_wsj_date`
returns the date normalized to `YYYY-MM-DD`, mapping a two-digit year `≤ 69`
to `2000 + year` and `> 69` to `1900 + year`; in particular `"3/5/24"`,
`"3/5/70"` and `"3/5/69"` yield `"2024-03-05"`, `"1970-03-05"` and
`"2069-03-05"`. -/
theorem claim_C1_date_window :
    (∀ ms ds ys : List Char,
      (∀ c ∈ ms, c.isDigit = true) → (∀ c ∈ ds, c.isDigit = true) →
      (∀ c ∈ ys, c.isDigit = true) →
      1 ≤ ms.length → ms.length ≤ 2 → 1 ≤ ds.length → ds.length ≤ 2 →
      (ys.length = 2 →
        isValidDatetime
          (if natOfDigits ys ≤ 69 then 2000 + natOfDigits ys else 1900 + natOfDigits ys)
          (natOfDigits ms) (natOfDigits ds) = true →
        _parse_wsj_date ⟨ms ++ '/' :: (ds ++ '/' :: ys)⟩
          = some (strftimeYmd
              (if natOfDigits ys ≤ 69 then 2000 + natOfDigits ys else 1900 + natOfDigits ys)
              (natOfDigits ms) (natOfDigits ds))) ∧
      (ys.length = 4 →
        isValidDatetime (natOfDigits ys) (natOfDigits ms) (natOfDigits ds) = true →
        _parse_wsj_date ⟨ms ++ '/' :: (ds ++ '/' :: ys)⟩
          = some (strftimeYmd (natOfDigits ys) (natOfDigits ms) (natOfDigits ds)))) ∧
    _parse_wsj_date "3/5/24" = some "2024-03-05" ∧
    _parse_wsj_date "3/5/70" = some "1970-03-05" ∧
    _parse_wsj_date "3/5/69" = some "2069-03-05" := by
  refine ⟨?_, by decide, by decide, by decide⟩
  intro ms ds ys hms hds hys hm1 hm2 hd1 hd2
  constructor
  · intro hlen hvalid
    rw [parse_wsj_date_shape ms ds ys hms hds hys hm1 hm2 hd1 hd2 (by omega) (by omega)]
    simp [hlen, hvalid]
  · intro hlen hvalid
    rw [parse_wsj_date_shape ms ds ys hms hds hys hm1 hm2 hd1 hd2 (by omega) (by omega)]
    rw [hlen]
    simp [hvalid]

/-- Witness for C1: the universal part applied to the concrete input
`"12/31/99"`. -/
theorem claim_C1_witness : _parse_wsj_date "12/31/99" = some "1999-12-31" := by
  have h := (claim_C1_date_window.1 ['1', '2'] ['3', '1'] ['9', '9']
    (by decide) (by decide) (by decide) (by decide) (by decide) (by decide) (by decide)).1
    (by decide) (by decide)
  have h2 : (⟨['1', '2'] ++ '/' :: (['3', '1'] ++ '/' :: ['9', '9'])⟩ : String)
      = "12/31/99" := by decide
  rw [h2] at h
  exact h.trans (by decide)

/-- C6: an input that does not match the recognized `M/D/Y(Y)` regex shape
(for example `"2024-03-05"`) yields no result, and every input on which
`_parse_wsj_date` returns a value matches the shape. -/
theorem claim_C6_shape_only :
    (∀ s : String, wsjRegexMatch (stripList s.toList) = none → _parse_wsj_date s = none) ∧
    (∀ s : String, (_parse_wsj_date s).isSome = true →
      (wsjRegexMatch (stripList s.toList)).isSome = true) ∧
    _parse_wsj_date "2024-03-05" = none := by
  refine ⟨?_, ?_, by decide⟩
  · intro s h
    have h2 : wsjRegexMatch (stripList s.data) = none := h
    unfold _parse_wsj_date
    simp [h, h2]
  · intro s h
    cases hm : wsjRegexMatch (stripList s.toList) with
    | none =>
      have h2 : wsjRegexMatch (stripList s.data) = none := hm
      unfold _parse_wsj_date at h
      simp [hm, h2] at h
    | some g => simp [hm]

/-- Witness for C6: the shape-only direction applied at `"3/5/24"`. -/
theorem claim_C6_witness :
    (wsjRegexMatch (stripList "3/5/24".toList)).isSome = true :=
  claim_C6_shape_only.2.1 "3/5/24" (by decide)

/-- C4: `_parse_number` keeps only digits, dot and minus from the stripped
input and converts the remainder with `float()`; an empty-after-stripping or
non-numeric remainder gives no result; `"$ 7.1234"` parses to `7.1234`,
`"-3.5 "` to `-3.5`, while `""` and `"abc"` give no result. -/
theorem claim_C4_number_strip :
    (∀ t : String,
      ((stripList t.toList).filter keepNumChar = [] → _parse_number (some t) = none) ∧
      ((stripList t.toList).filter keepNumChar ≠ [] →
        _parse_number (some t) = pyFloatOfChars ((stripList t.toList).filter keepNumChar))) ∧
    _parse_number (some "$ 7.1234") = some (mkRat 71234 10000) ∧
    _parse_number (some "-3.5 ") = some (mkRat (-35) 10) ∧
    _parse_number (some "") = none ∧
    _parse_number (some "abc") = none := by
  refine ⟨?_, by decide, by decide, by decide, by decide⟩
  intro t
  constructor
  · intro h
    show (if (stripList t.toList).filter keepNumChar = [] then none
          else pyFloatOfChars ((stripList t.toList).filter keepNumChar)) = none
    rw [if_pos h]
  · intro h
    show (if (stripList t.toList).filter keepNumChar = [] then none
          else pyFloatOfChars ((stripList t.toList).filter keepNumChar))
        = pyFloatOfChars ((stripList t.toList).filter keepNumChar)
    rw [if_neg h]

/-- Witness for C4: the universal part applied at `"x7x"`. -/
theorem claim_C4_witness :
    _parse_number (some "x7x") = pyFloatOfChars ((stripList "x7x".toList).filter keepNumChar) :=
  ((claim_C4_number_strip.1 "x7x").2) (by decide)

/-- C10: both parsers are total — `_parse_number` maps a `None` argument and
any string whose stripped remainder fails `float()` (such as `"1.2.3"` or
`"-"`) to `None` instead of raising, and `_parse_wsj_date` maps regex-matching
but calendar-invalid inputs (such as `"2/30/24"` or `"13/1/24"`) to `None`.
Totality itself is witnessed by the embedding: each parser is a total function
of its input. -/
theorem claim_C10_total :
    _parse_number none = none ∧
    _parse_number (some "1.2.3") = none ∧
    _parse_number (some "-") = none ∧
    _parse_wsj_date "2/30/24" = none ∧
    _parse_wsj_date "13/1/24" = none :=
  ⟨by decide, by decide, by decide, by decide, by decide⟩

/-- C9: both parsers are pure and deterministic — two invocations on the same
input, in any ambient worlds, return the same output, and neither invocation
changes the world. -/
theorem claim_C9_pure :
    ∀ (w w' : Nat) (t : Option String) (s : String),
      (parseNumberInvoke w t).1 = (parseNumberInvoke w' t).1 ∧
      (parseNumberInvoke w t).2 = w ∧
      (parseWsjDateInvoke w s).1 = (parseWsjDateInvoke w' s).1 ∧
      (parseWsjDateInvoke w s).2 = w :=
  fun _ _ _ _ => ⟨rfl, rfl, rfl, rfl⟩

/-- C8: at the failing input `date_txt = "3/10/25"`, `close_txt = "abc"` the
parse step raises, but the message interpolates the parsed value
`close_val = None` instead of the raw close text: the offending raw text
`"abc"` does not occur in the message (while the raw date text does). -/
theorem claim_C8_close_text_missing :
    _parse_wsj_date "3/10/25" = some "2025-03-10" ∧
    _parse_number (some "abc") = none ∧
    fetchParseStep "3/10/25" "abc"
      = Except.error (wsjParseErrorMsg "3/10/25" pyNoneRepr) ∧
    charsContain (wsjParseErrorMsg "3/10/25" pyNoneRepr).toList "abc".toList = false ∧
    charsContain (wsjParseErrorMsg "3/10/25" pyNoneRepr).toList "3/10/25".toList = true :=
  ⟨by decide, by decide, rfl, by decide, by decide⟩

/-- C3: whenever the lower-cased first row differs from the canonical
4-column header, `ensure_header` clears the sheet (destroying all data rows)
and leaves exactly the canonical header; when the first row already matches
case-insensitively, it writes nothing. -/
theorem claim_C3_header_enforcement :
    ∀ ws : List (List String),
      ((ws.headD []).map pyLower ≠ canonicalHeader →
        ensure_header ws = [canonicalHeader]) ∧
      ((ws.headD []).map pyLower = canonicalHeader → ensure_header ws = ws) := by
  intro ws
  constructor
  · intro h
    show (if (ws.headD []).map pyLower ≠ canonicalHeader then [canonicalHeader] else ws)
        = [canonicalHeader]
    rw [if_pos h]
  · intro h
    show (if (ws.headD []).map pyLower ≠ canonicalHeader then [canonicalHeader] else ws)
        = ws
    rw [if_neg (not_not_intro h)]

/-- Witness for C3: a mismatched one-row sheet is clobbered; a matching sheet
with data is untouched. -/
theorem claim_C3_witness :
    ensure_header [["x"]] = [canonicalHeader] ∧
    ensure_header [["Date", "Close", "Source", "RETRIEVED_AT_UTC"], ["a", "b", "c", "d"]]
      = [["Date", "Close", "Source", "RETRIEVED_AT_UTC"], ["a", "b", "c", "d"]] :=
  ⟨(claim_C3_header_enforcement [["x"]]).1 (by decide),
   (claim_C3_header_enforcement
      [["Date", "Close", "Source", "RETRIEVED_AT_UTC"], ["a", "b", "c", "d"]]).2 (by decide)⟩

lemma existingDates_eq (rows : List (List String)) :
    existingDates rows = (rows.drop 1).map (fun r => r.headD "") := by
  cases rows with
  | nil => rfl
  | cons r t =>
    cases t with
    | nil => rfl
    | cons r2 t2 =>
      unfold existingDates
      rw [if_pos (by simp)]

/-- C7: the duplicate check extracts the first column of every row after the
header row and tests literal membership of the new date; it yields the empty
list on an empty or header-only sheet, `append_if_new` declines exactly when
the date is a member, and a date stored in a column other than the first does
not count as a duplicate. -/
theorem claim_C7_duplicate_scan :
    (∀ rows : List (List String),
      existingDates rows = (rows.drop 1).map (fun r => r.headD "")) ∧
    existingDates ([] : List (List String)) = [] ∧
    (∀ h : List String, existingDates [h] = []) ∧
    (∀ (ws : List (List String)) (d c src t : String),
      (append_if_new ws d c src t).1 = false ↔ d ∈ existingDates ws) ∧
    (append_if_new [canonicalHeader, ["x", "2024-03-05", "s", "t"]]
        "2024-03-05" "7.1" "src" "t2").1 = true := by
  refine ⟨existingDates_eq, rfl, fun h => rfl, ?_, by decide⟩
  intro ws d c src t
  unfold append_if_new
  by_cases h : d ∈ existingDates ws
  · simp [h]
  · simp [h]

/-- Witness for C7: the membership characterization at a concrete sheet. -/
theorem claim_C7_witness :
    (append_if_new [canonicalHeader, ["2024-03-05", "7.1", "src", "t1"]]
        "2024-03-05" "7.2" "src" "t2").1 = false :=
  (claim_C7_duplicate_scan.2.2.2.1 [canonicalHeader, ["2024-03-05", "7.1", "src", "t1"]]
    "2024-03-05" "7.2" "src" "t2").mpr (by decide)

/-- C2 counterexample: on an initially empty sheet (no header row) the first
call appends a row at index 0, which the duplicate scan (`rows[1:]`) never
sees; a second call with the same date appends again and returns `True`, so
the sheet ends with two rows for one date — the claim fails as universally
stated. -/
theorem claim_C2_counterexample :
    (append_if_new [] "2024-03-05" "7.1" "src" "t1").1 = true ∧
    (append_if_new [] "2024-03-05" "7.1" "src" "t1").2
      = [["2024-03-05", "7.1", "src", "t1"]] ∧
    (append_if_new [["2024-03-05", "7.1", "src", "t1"]] "2024-03-05" "7.1" "src" "t2").1
      = true ∧
    (((append_if_new [["2024-03-05", "7.1", "src", "t1"]]
        "2024-03-05" "7.1" "src" "t2").2).filter
      (fun r => r.headD "" = "2024-03-05")).length = 2 :=
  ⟨by decide, by decide, by decide, by decide⟩

/-- C2 (amended): on any sheet that already has at least one row (the header
`ensure_header` guarantees before every append), a first call with an absent
date appends exactly `[date, close, source, timestamp]` and returns `True`,
and a second call with the same date is a no-op returning `False`, so at most
one data row per distinct date arises. -/
theorem claim_C2_amended :
    ∀ (s : List (List String)) (d c src t c2 src2 t2 : String),
      s ≠ [] →
      d ∉ (s.drop 1).map (fun r => r.headD "") →
      append_if_new s d c src t = (true, s ++ [[d, c, src, t]]) ∧
      append_if_new (s ++ [[d, c, src, t]]) d c2 src2 t2
        = (false, s ++ [[d, c, src, t]]) := by
  intro s d c src t c2 src2 t2 hne hnotin
  constructor
  · unfold append_if_new
    rw [existingDates_eq]
    rw [if_neg hnotin]
  · unfold append_if_new
    rw [existingDates_eq]
    have hcol : ((s ++ [[d, c, src, t]]).drop 1).map (fun r => r.headD "")
        = (s.drop 1).map (fun r => r.headD "") ++ [d] := by
      cases s with
      | nil => exact absurd rfl hne
      | cons a as => simp
    rw [hcol]
    rw [if_pos (by simp)]

/-- Witness for C2 (amended): starting from a header-only sheet. -/
theorem claim_C2_witness :
    append_if_new [canonicalHeader] "2024-03-05" "7.1" "src" "t1"
      = (true, [canonicalHeader] ++ [["2024-03-05", "7.1", "src", "t1"]]) ∧
    append_if_new ([canonicalHeader] ++ [["2024-03-05", "7.1", "src", "t1"]])
        "2024-03-05" "7.2" "src" "t2"
      = (false, [canonicalHeader] ++ [["2024-03-05", "7.1", "src", "t1"]]) :=
  claim_C2_amended [canonicalHeader] "2024-03-05" "7.1" "src" "t1" "7.2" "src" "t2"
    (by decide) (by decide)

lemma mainAppendPhase_cases (s : List (List String)) (d c source retrieved : String)
    (failAt : Option Nat) (i : Nat) :
    mainAppendPhase s d c source retrieved failAt i = (RunOutcome.error, s) ∨
    mainAppendPhase s d c source retrieved failAt i = (RunOutcome.ok false, s) ∨
    mainAppendPhase s d c source retrieved failAt i
      = (RunOutcome.ok true, s ++ [[d, c, source, retrieved]]) := by
  unfold mainAppendPhase
  by_cases h1 : failAt = some i
  · simp [h1]
  · by_cases h2 : d ∈ existingDates s
    · simp [h1, h2]
    · by_cases h3 : failAt = some (i + 1)
      · simp [h1, h2, h3]
      · simp [h1, h2, h3]

lemma mainRun_cases (s : List (List String)) (d c source retrieved : String)
    (failAt : Option Nat) :
    mainRun s (some (d, c)) source retrieved failAt = (RunOutcome.error, s) ∨
    mainRun s (some (d, c)) source retrieved failAt = (RunOutcome.error, []) ∨
    mainRun s (some (d, c)) source retrieved failAt
      = (RunOutcome.error, ensure_header s) ∨
    mainRun s (some (d, c)) source retrieved failAt
      = (RunOutcome.ok false, ensure_header s) ∨
    mainRun s (some (d, c)) source retrieved failAt
      = (RunOutcome.ok true, ensure_header s ++ [[d, c, source, retrieved]]) := by
  unfold mainRun ensure_header
  by_cases h0 : failAt = some 0
  · simp [h0]
  · by_cases hh : List.map pyLower (s.head?.getD []) = canonicalHeader
    · rcases mainAppendPhase_cases s d c source retrieved failAt 1
        with hc | hc | hc <;> simp [h0, hh, hc]
    · by_cases h1 : failAt = some 1
      · simp [h0, hh, h1]
      · by_cases h2 : failAt = some 2
        · simp [h0, hh, h1, h2]
        · rcases mainAppendPhase_cases [canonicalHeader] d c source retrieved failAt 3
            with hc | hc | hc <;> simp [h0, hh, h1, h2, hc]

/-- C5 counterexample: start from a sheet holding a non-canonical header and
one data row; the fetch succeeds and the spreadsheet API call at index 3 (the
`get_all_values` read inside `append_if_new`) fails.  The run terminates in
error, yet the sheet has been rewritten to the bare canonical header: the old
data row is destroyed and a header row was written, so an error termination
is not write-free as claimed. -/
theorem claim_C5_counterexample :
    mainRun [["old"], ["2024-01-01", "7.0", "src", "t0"]]
        (some ("2025-03-10", "7.1782")) "src" "t1" (some 3)
      = (RunOutcome.error, [canonicalHeader]) ∧
    ([canonicalHeader] : List (List String))
      ≠ [["old"], ["2024-01-01", "7.0", "src", "t0"]] ∧
    ["2024-01-01", "7.0", "src", "t0"] ∉ ([canonicalHeader] : List (List String)) :=
  ⟨by decide, by decide, by decide⟩

/-- C5 (amended): a failure before any spreadsheet call writes nothing; a run
that terminates in error leaves the sheet unchanged, or cleared empty, or
holding exactly the canonical header (the destructive header enforcement may
already have run) — never a partial data row; a successful duplicate-skip run
writes nothing beyond the header enforcement; a successful insert run writes
the header enforcement plus exactly the one intended row. -/
theorem claim_C5_amended :
    ∀ (s : List (List String)) (d c source retrieved : String) (failAt : Option Nat),
      mainRun s none source retrieved failAt = (RunOutcome.error, s) ∧
      ((mainRun s (some (d, c)) source retrieved failAt).1 = RunOutcome.error →
        (mainRun s (some (d, c)) source retrieved failAt).2 = s ∨
        (mainRun s (some (d, c)) source retrieved failAt).2 = [] ∨
        (mainRun s (some (d, c)) source retrieved failAt).2 = [canonicalHeader]) ∧
      ((mainRun s (some (d, c)) source retrieved failAt).1 = RunOutcome.ok false →
        (mainRun s (some (d, c)) source retrieved failAt).2 = ensure_header s) ∧
      ((mainRun s (some (d, c)) source retrieved failAt).1 = RunOutcome.ok true →
        (mainRun s (some (d, c)) source retrieved failAt).2
          = ensure_header s ++ [[d, c, source, retrieved]]) := by
  intro s d c source retrieved failAt
  have hens : ensure_header s = s ∨ ensure_header s = [canonicalHeader] := by
    unfold ensure_header
    by_cases hch : (s.headD []).map pyLower ≠ canonicalHeader
    · right; rw [if_pos hch]
    · left; rw [if_neg hch]
  refine ⟨rfl, ?_, ?_, ?_⟩
  · intro he
    rcases mainRun_cases s d c source retrieved failAt with h | h | h | h | h <;>
      rw [h] at he ⊢
    · left; rfl
    · right; left; rfl
    · rcases hens with h2 | h2
      · left; exact h2
      · right; right; exact h2
    · exact absurd he (by simp)
    · exact absurd he (by simp)
  · intro he
    rcases mainRun_cases s d c source retrieved failAt with h | h | h | h | h
    all_goals rw [h] at he
    all_goals try simp at he
    all_goals rw [h]
  · intro he
    rcases mainRun_cases s d c source retrieved failAt with h | h | h | h | h
    all_goals rw [h] at he
    all_goals try simp at he
    all_goals rw [h]

/-- Witness for C5 (amended): a fault-free run on a header-only sheet inserts
exactly the intended row. -/
theorem claim_C5_witness :
    (mainRun [canonicalHeader] (some ("2025-03-10", "7.1782")) "src" "t1" none).2
      = ensure_header [canonicalHeader] ++ [["2025-03-10", "7.1782", "src", "t1"]] :=
  (claim_C5_amended [canonicalHeader] "2025-03-10" "7.1782" "src" "t1" none).2.2.2
    (by decide)
